import Mathlib

/-!
Shallow embedding of the retail intelligence dashboard (streamlit views over a
Snowflake warehouse plus a Cortex Analyst chat bridge), covering the chat turn
protocol of cortex_analyst.py, the query executors and caches of the three
metric views, the filter validation logic, and the client-side dataframe
filters of the product view.
-/

namespace RetailDashboard

/-- A content block of a chat message: plain text or an executable SQL
statement (the type field of the JSON content items in cortex_analyst.py). -/
inductive ContentBlock where
  | text (s : String)
  | sql (statement : String)
deriving DecidableEq

/-- One chat transcript turn: an entry of st.session_state.messages, with a
role (user or assistant) and an ordered list of content blocks. -/
structure Turn where
  role : String
  content : List ContentBlock
deriving DecidableEq

/-- The HTTP response from the agent endpoint as observed by send_message in
cortex_analyst.py: the status code, the raw body text, the parsed content
blocks of the JSON body at message.content, and the X-Snowflake-Request-Id
header (absent when the header is missing). -/
structure HttpResponse where
  status_code : Nat
  body_text : String
  message_content : List ContentBlock
  request_id : Option String
deriving DecidableEq

/-- The exception raised by send_message (cortex_analyst.py lines 96-98): it
carries the request id, the status code and the response body text. -/
structure Failure where
  request_id : Option String
  status_code : Nat
  body : String
deriving DecidableEq

/-- Successful result of send_message (cortex_analyst.py line 94): the parsed
JSON body augmented with the request id. -/
structure SendResult where
  message_content : List ContentBlock
  request_id : Option String
deriving DecidableEq

/-- send_message, cortex_analyst.py lines 78-98, as a function of the HTTP
response it receives: when resp.status_code < 400 it returns the parsed body
together with the request id, otherwise it raises the Failure. -/
def send_message (resp : HttpResponse) : Except Failure SendResult :=
  if resp.status_code < 400 then
    Except.ok { message_content := resp.message_content, request_id := resp.request_id }
  else
    Except.error { request_id := resp.request_id, status_code := resp.status_code,
                   body := resp.body_text }

/-- The user turn that process_message appends before calling the agent
(cortex_analyst.py lines 133-135). -/
def user_turn (prompt : String) : Turn :=
  { role := "user", content := [ContentBlock.text prompt] }

/-- process_message, cortex_analyst.py lines 130-145: append the user turn to
the transcript, call send_message; on success append the assistant turn built
from the response content; an exception from send_message propagates (second
component of the result) after the user turn was already appended, so the
transcript keeps exactly the user turn in that case. -/
def process_message (messages : List Turn) (prompt : String) (resp : HttpResponse) :
    List Turn × Option Failure :=
  match send_message resp with
  | Except.ok r =>
      (messages ++ [user_turn prompt] ++ [{ role := "assistant", content := r.message_content }],
       none)
  | Except.error f => (messages ++ [user_turn prompt], some f)

/-- C1: for every agent response with status at least 400, send_message raises
a Failure carrying the request id, status code and response body, and
process_message leaves the transcript unchanged except for the user turn it
appended before the call: no assistant turn is added. -/
theorem c1_failure_leaves_transcript_user_only (messages : List Turn) (prompt : String)
    (resp : HttpResponse) (h : 400 ≤ resp.status_code) :
    send_message resp = Except.error
      { request_id := resp.request_id, status_code := resp.status_code, body := resp.body_text }
    ∧ (process_message messages prompt resp).1 = messages ++ [user_turn prompt]
    ∧ (process_message messages prompt resp).2 = some
      { request_id := resp.request_id, status_code := resp.status_code,
        body := resp.body_text } := by
  have hlt : ¬ resp.status_code < 400 := not_lt.mpr h
  refine ⟨?_, ?_, ?_⟩ <;> simp [send_message, process_message, hlt]

/-- A concrete 503 response, used to witness C1. -/
def resp_unavailable : HttpResponse :=
  { status_code := 503, body_text := "unavailable",
    message_content := [], request_id := some "req-9" }

/-- Witness for C1 at a concrete 503 response. -/
theorem c1_failure_leaves_transcript_user_only_witness :
    send_message resp_unavailable
      = Except.error { request_id := some "req-9", status_code := 503, body := "unavailable" }
    ∧ (process_message [] "hello" resp_unavailable).1 = [user_turn "hello"]
    ∧ (process_message [] "hello" resp_unavailable).2
      = some { request_id := some "req-9", status_code := 503, body := "unavailable" } := by
  have h := c1_failure_leaves_transcript_user_only [] "hello" resp_unavailable (by decide)
  simpa [resp_unavailable] using h

/-- A concrete redirect-class response: status 301 is outside the 2xx range. -/
def resp_redirect : HttpResponse :=
  { status_code := 301, body_text := "Moved Permanently",
    message_content := [], request_id := some "req-301" }

/-- C2 counterexample: a response with status 301 is not in the 2xx range, yet
send_message does not raise a Failure — it returns the ok branch, because the
code only checks resp.status_code < 400. -/
theorem c2_counterexample_redirect_not_raised :
    ¬ (200 ≤ resp_redirect.status_code ∧ resp_redirect.status_code ≤ 299)
    ∧ send_message resp_redirect
      = Except.ok { message_content := [], request_id := some "req-301" } := by
  exact ⟨by decide, rfl⟩

/-- C2 (amended): send_message raises the Failure (with request id, status
code and body text) exactly for status codes at least 400; for every status
code below 400 — the whole 1xx/2xx/3xx range — it returns the parsed body
augmented with the request id and does not raise. -/
theorem c2_amended_send_message (resp : HttpResponse) :
    (400 ≤ resp.status_code →
      send_message resp = Except.error
        { request_id := resp.request_id, status_code := resp.status_code,
          body := resp.body_text })
    ∧ (resp.status_code < 400 →
      send_message resp = Except.ok
        { message_content := resp.message_content, request_id := resp.request_id }) := by
  constructor
  · intro h
    simp [send_message, not_lt.mpr h]
  · intro h
    simp [send_message, h]

/-- A concrete 404 response, used to witness the amended C2. -/
def resp_not_found : HttpResponse :=
  { status_code := 404, body_text := "not found",
    message_content := [], request_id := some "r1" }

/-- A concrete 200 response, used to witness the amended C2. -/
def resp_ok : HttpResponse :=
  { status_code := 200, body_text := "ok",
    message_content := [ContentBlock.text "hi"], request_id := some "r2" }

/-- Witness for the amended C2 at a concrete 404 and a concrete 200 response. -/
theorem c2_amended_send_message_witness :
    send_message resp_not_found
      = Except.error { request_id := some "r1", status_code := 404, body := "not found" }
    ∧ send_message resp_ok
      = Except.ok { message_content := [ContentBlock.text "hi"], request_id := some "r2" } :=
  ⟨(c2_amended_send_message resp_not_found).1 (by decide),
   (c2_amended_send_message resp_ok).2 (by decide)⟩

/-- A scalar cell value of a warehouse result set. -/
inductive Scalar where
  | s (v : String)
  | i (v : Int)
  | q (v : ℚ)
  | null
deriving DecidableEq

/-- A materialized warehouse result (pandas DataFrame): an ordered column
list and the fetched rows, each row aligned to the columns. -/
structure DataFrame where
  columns : List String
  rows : List (List Scalar)
deriving DecidableEq

/-- A DataFrame after pandas set_index on its first column
(cortex_analyst.py line 121: df.set_index(df.columns[0])): the first column
becomes the index of the charted frame, the remaining columns stay data. -/
structure IndexedFrame where
  index_column : String
  index : List Scalar
  columns : List String
  rows : List (List Scalar)
deriving DecidableEq

/-- df.set_index(df.columns[0]) from cortex_analyst.py line 121. -/
def set_index_first (df : DataFrame) : IndexedFrame :=
  { index_column := df.columns.headD ""
    index := df.rows.map (fun r => r.headD Scalar.null)
    columns := df.columns.tail
    rows := df.rows.map List.tail }

/-- The rendering of one SQL result inside a chat turn: either a flat
dataframe table, or the three-way tabbed view (data tab always holds the
dataframe; the line-chart and bar-chart tabs hold the first-column-indexed
frame when present, and stay empty when the charts argument is none). -/
inductive SqlRender where
  | flatTable (df : DataFrame)
  | tabbed (data_tab : DataFrame) (charts : Option IndexedFrame)
deriving DecidableEq

/-- cortex_analyst.py lines 114-127: a result with more than one row opens
the three tabs, shows the dataframe in the data tab, and draws the line and
bar charts over the first-column-indexed frame only when there is more than
one column; any other result is shown as a flat table. -/
def render_sql_result (df : DataFrame) : SqlRender :=
  if 1 < df.rows.length then
    SqlRender.tabbed df (if 1 < df.columns.length then some (set_index_first df) else none)
  else
    SqlRender.flatTable df

/-- One rendered element of a chat message body. -/
inductive RenderItem where
  | markdown (s : String)
  | sqlResult (r : SqlRender)
deriving DecidableEq

/-- display_content, cortex_analyst.py lines 101-127, parameterized by the
executor exec (pd.read_sql over the shared session connection). A text block
renders as markdown; a sql block executes its statement directly through
exec — there is no cache layer and no try/except here, so a driver error
aborts the rendering and propagates to the caller. -/
def display_content (exec : String → Except String DataFrame) :
    List ContentBlock → Except String (List RenderItem)
  | [] => Except.ok []
  | ContentBlock.text s :: rest =>
      (display_content exec rest).map (fun items => RenderItem.markdown s :: items)
  | ContentBlock.sql stmt :: rest =>
      match exec stmt with
      | Except.error e => Except.error e
      | Except.ok df =>
          (display_content exec rest).map
            (fun items => RenderItem.sqlResult (render_sql_result df) :: items)

/-- run_query, product_performance_metrics.py lines 46-56 (the same shape at
benchmarking_and_customer_insights.py lines 44-54): the cursor execution is
wrapped in try/except; a driver error is shown as a st.error message and
None is returned instead of a frame. The first component is the returned
value, the second the list of error messages shown. -/
def run_query (exec_result : Except String DataFrame) : Option DataFrame × List String :=
  match exec_result with
  | Except.ok df => (some df, [])
  | Except.error e => (none, ["Error executing query: " ++ e])

/-- run_query, sales_performance_metrics.py lines 39-47: the single-column
variant; a driver error is shown as a st.error message and the empty list is
returned. -/
def run_query_sales (exec_result : Except String (List Scalar)) :
    List Scalar × List String :=
  match exec_result with
  | Except.ok vs => (vs, [])
  | Except.error e => ([], ["Error executing query: " ++ e])

/-- fetch_results, sales_performance_metrics.py lines 159-169 (and
fetch_top_products, lines 279-289, with its own message): a driver error is
shown as a st.error message and the pair (None, None) is returned. -/
def fetch_results (exec_result : Except String DataFrame) :
    (Option (List String) × Option (List (List Scalar))) × List String :=
  match exec_result with
  | Except.ok df => ((some df.columns, some df.rows), [])
  | Except.error e => ((none, none), ["Error fetching results: " ++ e])

/-- C3 counterexample: rendering a chat turn whose content holds a
sql-statement block does not catch driver errors — when the executor fails,
display_content propagates the error to its caller instead of surfacing a
warning and returning an empty result, so this warehouse call site violates
the catch-everywhere policy. -/
theorem c3_counterexample_chat_sql_propagates :
    display_content (fun _ => Except.error "connection lost")
      [ContentBlock.sql "SELECT 1"]
      = Except.error "connection lost" := rfl

/-- C3 (amended): the dedicated executors run_query (product and
benchmarking views), run_query of the sales view and fetch_results catch
every driver error, show a warning and return an absent/empty result — but
the SQL-statement execution performed while rendering a chat turn is not
wrapped, and its driver errors propagate out of display_content. -/
theorem c3_amended_executor_boundaries (e : String) (stmt : String) :
    run_query (Except.error e) = (none, ["Error executing query: " ++ e])
    ∧ run_query_sales (Except.error e) = ([], ["Error executing query: " ++ e])
    ∧ fetch_results (Except.error e) = ((none, none), ["Error fetching results: " ++ e])
    ∧ display_content (fun _ => Except.error e) [ContentBlock.sql stmt]
      = Except.error e :=
  ⟨rfl, rfl, rfl, rfl⟩

/-- C6: rendering a turn with a sql-statement block executes the statement
directly through the warehouse executor (no cache layer sits between
display_content and exec, so every render is fresh); a result with at most
one row renders as a flat table, and a result with more than one row and
more than one column renders as the three-way tabbed view whose charts are
indexed by the first column. -/
theorem c6_sql_block_execution_and_rendering (exec : String → Except String DataFrame)
    (stmt : String) (df : DataFrame) (hexec : exec stmt = Except.ok df) :
    display_content exec [ContentBlock.sql stmt]
      = Except.ok [RenderItem.sqlResult (render_sql_result df)]
    ∧ (df.rows.length ≤ 1 → render_sql_result df = SqlRender.flatTable df)
    ∧ (1 < df.rows.length → 1 < df.columns.length →
        render_sql_result df = SqlRender.tabbed df (some (set_index_first df))) := by
  refine ⟨?_, ?_, ?_⟩
  · simp [display_content, hexec, Except.map]
  · intro h
    simp [render_sql_result, not_lt.mpr h]
  · intro hr hc
    simp [render_sql_result, hr, hc]

/-- A concrete two-row two-column result, used to witness C6. -/
def df_two_by_two : DataFrame :=
  { columns := ["STORE", "AVG_PRICE"]
    rows := [[Scalar.s "A", Scalar.q 3], [Scalar.s "B", Scalar.q 5]] }

/-- Witness for C6 at a concrete executor returning a 2x2 result. -/
theorem c6_sql_block_execution_and_rendering_witness :
    display_content (fun _ => Except.ok df_two_by_two) [ContentBlock.sql "SELECT 1"]
      = Except.ok [RenderItem.sqlResult (render_sql_result df_two_by_two)]
    ∧ render_sql_result df_two_by_two
      = SqlRender.tabbed df_two_by_two (some (set_index_first df_two_by_two)) := by
  have h := c6_sql_block_execution_and_rendering (fun _ => Except.ok df_two_by_two)
    "SELECT 1" df_two_by_two rfl
  exact ⟨h.1, h.2.2 (by decide) (by decide)⟩

/-- C10: a result with more than one row but exactly one column still opens
the three-way tabbed view, with the chart tabs left empty: the charts are
only drawn when the result also has more than one column. -/
theorem c10_single_column_tabbed_without_charts (df : DataFrame)
    (hr : 1 < df.rows.length) (hc : df.columns.length = 1) :
    render_sql_result df = SqlRender.tabbed df none := by
  simp [render_sql_result, hr, hc]

/-- A concrete three-row one-column result, used to witness C10. -/
def df_one_column : DataFrame :=
  { columns := ["TOTAL"]
    rows := [[Scalar.i 1], [Scalar.i 2], [Scalar.i 3]] }

/-- Witness for C10 at a concrete 3x1 result. -/
theorem c10_single_column_tabbed_without_charts_witness :
    render_sql_result df_one_column = SqlRender.tabbed df_one_column none :=
  c10_single_column_tabbed_without_charts df_one_column (by decide) (by decide)

/-- A cache fingerprint: the literal query text plus the bound parameter
tuple (st.cache_data keys on the decorated function arguments: query alone
for run_query, the pair of query and params for fetch_results; an
unparameterized query carries the empty tuple). -/
structure Fingerprint where
  query : String
  params : List String
deriving DecidableEq

/-- A cache entry: the stored result and its creation timestamp. -/
structure CacheEntry (α : Type) where
  value : α
  timestamp : Nat
deriving DecidableEq

/-- Liveness of a cache entry created at time created, observed at time now:
with no ttl the entry lives for the whole session; with ttl t it lives while
its age is below t seconds (expires after t seconds). Modelled from the
spec: st.cache_data is third-party library code, whose contract spec 4.2
describes. -/
def entry_live (ttl : Option Nat) (now created : Nat) : Bool :=
  match ttl with
  | none => true
  | some t => now - created < t

/-- Association-list lookup of a fingerprint in the cache store. -/
def cache_lookup {α : Type} (fp : Fingerprint) :
    List (Fingerprint × CacheEntry α) → Option (CacheEntry α)
  | [] => none
  | (k, e) :: rest => if k = fp then some e else cache_lookup fp rest

/-- The cached-call contract of st.cache_data (modelled from the spec, 4.2,
since the decorator is third-party library code): a live entry for the
fingerprint is returned without invoking compute; otherwise compute runs and
its result is stored with the current timestamp. The last component records
whether compute was invoked. -/
def cached_call {α : Type} (fp : Fingerprint) (ttl : Option Nat) (now : Nat)
    (compute : Unit → α) (cache : List (Fingerprint × CacheEntry α)) :
    α × List (Fingerprint × CacheEntry α) × Bool :=
  match cache_lookup fp cache with
  | some e =>
      if entry_live ttl now e.timestamp then (e.value, cache, false)
      else
        let v := compute ()
        (v, (fp, { value := v, timestamp := now }) :: cache, true)
  | none =>
      let v := compute ()
      (v, (fp, { value := v, timestamp := now }) :: cache, true)

/-- The ttl of run_query on the product view
(product_performance_metrics.py line 46). -/
def product_run_query_ttl : Option Nat := some 3600

/-- The ttl of run_query on the benchmarking view
(benchmarking_and_customer_insights.py line 44). -/
def benchmarking_run_query_ttl : Option Nat := some 3600

/-- run_query on the sales view (sales_performance_metrics.py line 39)
has no ttl: entries live for the session. -/
def sales_run_query_ttl : Option Nat := none

/-- C4: starting from a cache without the fingerprint, the first call
computes and stores; the second call with the same fingerprint, while the
stored entry is unexpired, returns the stored result without re-executing —
compute is invoked exactly once across the two calls. The product and
benchmarking caches expire entries after 3600 seconds; the sales cache keeps
them for the session. -/
theorem c4_cache_hit_single_invocation (α : Type) (fp : Fingerprint) (ttl : Option Nat)
    (t1 t2 : Nat) (compute : Unit → α) (cache : List (Fingerprint × CacheEntry α))
    (habsent : cache_lookup fp cache = none)
    (hlive : entry_live ttl t2 t1 = true) :
    cached_call fp ttl t1 compute cache
      = (compute (), (fp, { value := compute (), timestamp := t1 }) :: cache, true)
    ∧ cached_call fp ttl t2 compute
        ((fp, { value := compute (), timestamp := t1 }) :: cache)
      = (compute (), (fp, { value := compute (), timestamp := t1 }) :: cache, false)
    ∧ product_run_query_ttl = some 3600
    ∧ benchmarking_run_query_ttl = some 3600
    ∧ sales_run_query_ttl = none
    ∧ (∀ now created : Nat, entry_live sales_run_query_ttl now created = true) := by
  refine ⟨?_, ?_, rfl, rfl, rfl, fun _ _ => rfl⟩
  · simp [cached_call, habsent]
  · simp [cached_call, cache_lookup, hlive]

/-- Witness for C4: a concrete fingerprint, an empty cache, a 3600-second
ttl and a second call 10 seconds after the first. -/
theorem c4_cache_hit_single_invocation_witness :
    cached_call { query := "SELECT DISTINCT BRAND FROM Products", params := [] }
        (some 3600) 0 (fun _ => (7 : Nat)) []
      = (7, [({ query := "SELECT DISTINCT BRAND FROM Products", params := [] },
              { value := 7, timestamp := 0 })], true)
    ∧ cached_call { query := "SELECT DISTINCT BRAND FROM Products", params := [] }
        (some 3600) 10 (fun _ => (7 : Nat))
        [({ query := "SELECT DISTINCT BRAND FROM Products", params := [] },
          { value := 7, timestamp := 0 })]
      = (7, [({ query := "SELECT DISTINCT BRAND FROM Products", params := [] },
              { value := 7, timestamp := 0 })], false) := by
  have h := c4_cache_hit_single_invocation Nat
    { query := "SELECT DISTINCT BRAND FROM Products", params := [] }
    (some 3600) 0 10 (fun _ => (7 : Nat)) [] rfl (by decide)
  exact ⟨h.1, h.2.1⟩

/-- A dropdown value turned into a query parameter
(sales_performance_metrics.py lines 111-114): None for All, the value
itself otherwise. -/
def opt_filter (v : String) : Option String :=
  if v = "All" then none else some v

/-- The filter state of the sales view: the date-range picker output (a list
of day ordinals, possibly holding fewer than two dates while the user is
still picking) and the four dropdown selections. -/
structure SalesFilters where
  date_range : List Nat
  selected_brand : String
  selected_category : String
  selected_subcategory : String
  selected_merchant : String
deriving DecidableEq

/-- Outcome of the sales-view validation stage: either the script stops with
an error message before any main query is issued (st.error followed by
st.stop), or the main query is issued with the date bounds and the optional
filter parameters. -/
inductive SalesStage where
  | stopped (message : String)
  | queried (start_date end_date : Nat) (params : List (Option String))
deriving DecidableEq

/-- sales_performance_metrics.py lines 94-155: a date range without exactly
two bounds stops the script with an error; a start date after the end date
also stops; otherwise the main query is issued with the bounds and the
brand, category, subcategory and merchant parameters. -/
def sales_validate (f : SalesFilters) : SalesStage :=
  if f.date_range.length ≠ 2 then
    SalesStage.stopped "Please select a valid start and end date."
  else
    let s := f.date_range.headD 0
    let e := f.date_range.tail.headD 0
    if e < s then SalesStage.stopped "Start date must be before end date."
    else
      SalesStage.queried s e
        [opt_filter f.selected_brand, opt_filter f.selected_category,
         opt_filter f.selected_subcategory, opt_filter f.selected_merchant]

/-- The filter state of the competitor-pricing section of the benchmarking
view: the single-select brand, the store multiselect and the date-range
picker output. -/
structure CompetitorFilters where
  selected_brand : String
  selected_stores : List String
  date_range : List Nat
deriving DecidableEq

/-- Outcome of the competitor-pricing section: either an informational
prompt with no query, or the pricing query issued with the brand, the store
set and the date bounds. -/
inductive CompetitorStage where
  | prompt (message : String)
  | queried (brand : String) (stores : List String) (start_date end_date : Nat)
deriving DecidableEq

/-- benchmarking_and_customer_insights.py lines 177-235: valid_inputs is
cleared when the date range does not hold exactly two bounds or when the
store multiselect is empty; only valid inputs issue the competitor pricing
query, otherwise st.info asks the user to adjust the filters. -/
def competitor_validate (f : CompetitorFilters) : CompetitorStage :=
  if f.date_range.length = 2 ∧ f.selected_stores ≠ [] then
    CompetitorStage.queried f.selected_brand f.selected_stores
      (f.date_range.headD 0) (f.date_range.tail.headD 0)
  else
    CompetitorStage.prompt "Please adjust the filters above to see competitor pricing trends."

/-- C5: when a required paired input is incomplete — fewer than two date
bounds on the sales view, fewer than two date bounds or an empty store
selection on the competitor-pricing section — no warehouse query is issued
for that section and a prompt asking the user to adjust the filters renders
instead. -/
theorem c5_incomplete_inputs_skip_queries (sf : SalesFilters) (cf : CompetitorFilters)
    (hs : sf.date_range.length < 2)
    (hc : cf.date_range.length < 2 ∨ cf.selected_stores = []) :
    sales_validate sf = SalesStage.stopped "Please select a valid start and end date."
    ∧ competitor_validate cf
      = CompetitorStage.prompt
          "Please adjust the filters above to see competitor pricing trends." := by
  constructor
  · simp [sales_validate, Nat.ne_of_lt hs]
  · have hnot : ¬ (cf.date_range.length = 2 ∧ cf.selected_stores ≠ []) := by
      rcases hc with h | h
      · exact fun hv => absurd hv.1 (Nat.ne_of_lt h)
      · exact fun hv => hv.2 h
    simp [competitor_validate, hnot]

/-- Witness for C5: a one-date range on the sales view and an empty store
multiselect on the competitor-pricing section. -/
theorem c5_incomplete_inputs_skip_queries_witness :
    sales_validate
        { date_range := [737791], selected_brand := "All", selected_category := "All",
          selected_subcategory := "All", selected_merchant := "All" }
      = SalesStage.stopped "Please select a valid start and end date."
    ∧ competitor_validate
        { selected_brand := "Acme", selected_stores := [], date_range := [737791, 738400] }
      = CompetitorStage.prompt
          "Please adjust the filters above to see competitor pricing trends." :=
  c5_incomplete_inputs_skip_queries
    { date_range := [737791], selected_brand := "All", selected_category := "All",
      selected_subcategory := "All", selected_merchant := "All" }
    { selected_brand := "Acme", selected_stores := [], date_range := [737791, 738400] }
    (by decide) (Or.inr rfl)

/-- The four dashboard modules; each one defines its own st.cache_resource
decorated init_connection (product_performance_metrics.py line 20,
sales_performance_metrics.py line 13,
benchmarking_and_customer_insights.py line 18, cortex_analyst.py line 62). -/
inductive Module where
  | product
  | sales
  | benchmarking
  | cortex
deriving DecidableEq

/-- A live warehouse connection object, identified by its creation order:
two connections with different ids are distinct objects. -/
structure Connection where
  conn_id : Nat
deriving DecidableEq

/-- The process-wide memo state of st.cache_resource. Modelled from the
spec and the library contract: st.cache_resource is third-party code that
memoizes per decorated function, keyed by the function module and name, so
the process holds one independent memo slot per dashboard module. -/
structure ProcessState where
  memo : Module → Option Connection
  next_id : Nat

/-- init_connection as decorated with st.cache_resource, for the module m:
a memoized connection is returned as-is; otherwise a fresh connection is
constructed from the configured parameters and stored in the memo slot of
this module only. -/
def init_connection (m : Module) (s : ProcessState) : Connection × ProcessState :=
  match s.memo m with
  | some c => (c, s)
  | none =>
      let c : Connection := { conn_id := s.next_id }
      (c, { memo := fun m2 => if m2 = m then some c else s.memo m2,
            next_id := s.next_id + 1 })

/-- The process state at startup: no module has connected yet. -/
def initial_state : ProcessState :=
  { memo := fun _ => none, next_id := 0 }

/-- C7 counterexample: from a fresh process, the product view and the sales
view do not receive the same connection object — each module constructs and
memoizes its own, so the claim that every call from any view returns one
shared connection fails. -/
theorem c7_counterexample_per_module_connections :
    (init_connection Module.product initial_state).1
      ≠ (init_connection Module.sales (init_connection Module.product initial_state).2).1 := by
  decide

/-- C7 (amended): each module memoizes its own single connection: within a
module, a repeated call to init_connection returns the same connection
object as the first call and leaves the process state unchanged, so the
connection is constructed once per module — but distinct modules hold
distinct connection objects. -/
theorem c7_amended_per_module_idempotence (m : Module) (s : ProcessState) :
    (init_connection m (init_connection m s).2).1 = (init_connection m s).1
    ∧ (init_connection m (init_connection m s).2).2 = (init_connection m s).2 := by
  cases h : s.memo m <;> simp [init_connection, h]

/-- The single-quote character used by the f-string interpolation when the
brand fragment is built. -/
def sql_quote_char : Char := Char.ofNat 39

/-- product_performance_metrics.py line 76: the brand fragment interpolated
into every WHERE clause of the view — an equality condition on p.BRAND for a
concrete brand, the empty string for All (so the WHERE clause stays 1=1). -/
def brand_filter_condition (selected_brand : String) : String :=
  if selected_brand = "All" then ""
  else
    "AND p.BRAND = " ++ String.singleton sql_quote_char ++ selected_brand
      ++ String.singleton sql_quote_char

/-- Row-level semantics of the interpolated brand fragment: the predicate the
warehouse evaluates on p.BRAND — vacuously true when the fragment is empty
(All), equality with the selected brand otherwise. -/
def brand_condition_keeps (selected_brand brand : String) : Bool :=
  if selected_brand = "All" then true else brand == selected_brand

/-- One row of the average-sale-price result set of the product view
(avg_price_df), with the columns the client-side filters touch. -/
structure AvgPriceRow where
  product_title : String
  average_sale_price : ℚ
deriving DecidableEq

/-- Substring containment on character lists (the semantics of the pandas
str.contains predicate for a plain search term): the needle occurs inside
the haystack. -/
def chars_contain (needle : List Char) : List Char → Bool
  | [] => needle.isEmpty
  | c :: rest => needle.isPrefixOf (c :: rest) || chars_contain needle rest

/-- Lowercasing of a character list, the case folding both sides of the
pandas predicate receive. -/
def lower_chars (cs : List Char) : List Char :=
  cs.map Char.toLower

/-- Case-insensitive substring check, the semantics of
Series.str.contains(search_term, case=False, na=False) applied to a present
string value (product_performance_metrics.py lines 151-152). -/
def str_contains_ci (s sub : String) : Bool :=
  chars_contain (lower_chars sub.data) (lower_chars s.data)

/-- The pandas column minimum of AVERAGE_SALE_PRICE over a result set (the
lower default bound of the price slider, lines 155-161). -/
def col_min : List AvgPriceRow → ℚ
  | [] => 0
  | r :: rest =>
      (rest.map (fun x => x.average_sale_price)).foldl min r.average_sale_price

/-- The pandas column maximum of AVERAGE_SALE_PRICE over a result set (the
upper default bound of the price slider, lines 155-161). -/
def col_max : List AvgPriceRow → ℚ
  | [] => 0
  | r :: rest =>
      (rest.map (fun x => x.average_sale_price)).foldl max r.average_sale_price

/-- product_performance_metrics.py lines 146-165: the client-side filters on
avg_price_df — the case-insensitive substring filter on PRODUCT_TITLE
followed by the inclusive price-range filter. -/
def client_filtered (search_term : String) (lo hi : ℚ) (rows : List AvgPriceRow) :
    List AvgPriceRow :=
  (rows.filter (fun r => str_contains_ci r.product_title search_term)).filter
    (fun r => decide (lo ≤ r.average_sale_price ∧ r.average_sale_price ≤ hi))

lemma chars_contain_nil_needle (hay : List Char) : chars_contain [] hay = true := by
  induction hay with
  | nil => rfl
  | cons c rest ih => simp [chars_contain, ih, List.isPrefixOf]

lemma foldl_min_le_init (xs : List ℚ) (a : ℚ) : xs.foldl min a ≤ a := by
  induction xs generalizing a with
  | nil => exact le_refl a
  | cons x rest ih => exact le_trans (ih (min a x)) (min_le_left a x)

lemma foldl_min_le_mem (xs : List ℚ) (a x : ℚ) (hx : x ∈ xs) : xs.foldl min a ≤ x := by
  induction xs generalizing a with
  | nil => cases hx
  | cons y rest ih =>
    rcases List.mem_cons.mp hx with h | h
    · subst h
      exact le_trans (foldl_min_le_init rest (min a x)) (min_le_right a x)
    · exact ih (min a y) h

lemma le_foldl_max_init (xs : List ℚ) (a : ℚ) : a ≤ xs.foldl max a := by
  induction xs generalizing a with
  | nil => exact le_refl a
  | cons x rest ih => exact le_trans (le_max_left a x) (ih (max a x))

lemma le_foldl_max_mem (xs : List ℚ) (a x : ℚ) (hx : x ∈ xs) : x ≤ xs.foldl max a := by
  induction xs generalizing a with
  | nil => cases hx
  | cons y rest ih =>
    rcases List.mem_cons.mp hx with h | h
    · subst h
      exact le_trans (le_max_right a x) (le_foldl_max_init rest (max a x))
    · exact ih (max a y) h

lemma col_min_le_of_mem (rows : List AvgPriceRow) (r : AvgPriceRow) (hr : r ∈ rows) :
    col_min rows ≤ r.average_sale_price := by
  cases rows with
  | nil => cases hr
  | cons r0 rest =>
    rcases List.mem_cons.mp hr with h | h
    · subst h
      exact foldl_min_le_init _ _
    · exact foldl_min_le_mem _ _ _ (List.mem_map_of_mem _ h)

lemma le_col_max_of_mem (rows : List AvgPriceRow) (r : AvgPriceRow) (hr : r ∈ rows) :
    r.average_sale_price ≤ col_max rows := by
  cases rows with
  | nil => cases hr
  | cons r0 rest =>
    rcases List.mem_cons.mp hr with h | h
    · subst h
      exact le_foldl_max_init _ _
    · exact le_foldl_max_mem _ _ _ (List.mem_map_of_mem _ h)

/-- C8: with brand All and empty search text, the interpolated brand
fragment is empty (the WHERE clause keeps every row), the empty search term
matches every product title, and the client-side substring plus
default-range price filters return the result set unchanged. -/
theorem c8_all_brand_empty_search_keeps_all (rows : List AvgPriceRow)
    (_hne : rows ≠ []) :
    brand_filter_condition "All" = ""
    ∧ (∀ b, brand_condition_keeps "All" b = true)
    ∧ (∀ t : String, str_contains_ci t "" = true)
    ∧ client_filtered "" (col_min rows) (col_max rows) rows = rows := by
  have hsearch : ∀ t : String, str_contains_ci t "" = true := by
    intro t
    exact chars_contain_nil_needle (lower_chars t.data)
  refine ⟨rfl, fun b => rfl, hsearch, ?_⟩
  have h1 : rows.filter (fun r => str_contains_ci r.product_title "") = rows :=
    List.filter_eq_self.mpr (fun r _ => hsearch r.product_title)
  have h2 : rows.filter
      (fun r => decide (col_min rows ≤ r.average_sale_price
        ∧ r.average_sale_price ≤ col_max rows)) = rows :=
    List.filter_eq_self.mpr
      (fun r hr => decide_eq_true ⟨col_min_le_of_mem rows r hr, le_col_max_of_mem rows r hr⟩)
  unfold client_filtered
  rw [h1, h2]

/-- A concrete two-row average-price result set, used to witness C8. -/
def avg_rows_example : List AvgPriceRow :=
  [{ product_title := "Widget", average_sale_price := 5 },
   { product_title := "Gadget", average_sale_price := 9 }]

/-- Witness for C8 at a concrete two-row result set. -/
theorem c8_all_brand_empty_search_keeps_all_witness :
    brand_filter_condition "All" = ""
    ∧ client_filtered "" (col_min avg_rows_example) (col_max avg_rows_example)
        avg_rows_example = avg_rows_example := by
  have h := c8_all_brand_empty_search_keeps_all avg_rows_example (by simp [avg_rows_example])
  exact ⟨h.1, h.2.2.2⟩

/-- One row of the product-availability search result
(product_performance_metrics.py lines 272-290). -/
structure AvailabilityRow where
  product_title : String
  brand : String
  availability : String
  sku : String
deriving DecidableEq

/-- What the availability search renders
(product_performance_metrics.py lines 290-322): the success banner with the
match count when matches exist, the too-many warning, the per-product status
banners, and the no-match info prompt. -/
structure AvailabilitySearchRender where
  found_count : Option Nat
  too_many_warning : Bool
  banners : List AvailabilityRow
  no_match_info : Bool
deriving DecidableEq

/-- product_performance_metrics.py lines 290-322: a missing or empty result
shows the no-match info; more than three matches show the found-count
banner plus the refine-your-search warning and suppress the per-product
banners; otherwise each matching product gets a status banner. -/
def render_availability_search (result : Option (List AvailabilityRow)) :
    AvailabilitySearchRender :=
  match result with
  | none =>
      { found_count := none, too_many_warning := false, banners := [], no_match_info := true }
  | some rows =>
      if rows.isEmpty then
        { found_count := none, too_many_warning := false, banners := [], no_match_info := true }
      else if 3 < rows.length then
        { found_count := some rows.length, too_many_warning := true, banners := [],
          no_match_info := false }
      else
        { found_count := some rows.length, too_many_warning := false, banners := rows,
          no_match_info := false }

/-- C9: when a search matches more than three products, the per-product
banners are suppressed and the refine-your-search warning shows instead;
the per-product banners render exactly when the match count is between one
and three — whenever banners appear, the result held between one and three
rows and no warning was shown. -/
theorem c9_availability_banner_threshold (rows : List AvailabilityRow)
    (result : Option (List AvailabilityRow)) :
    (3 < rows.length →
      render_availability_search (some rows)
        = { found_count := some rows.length, too_many_warning := true, banners := [],
            no_match_info := false })
    ∧ (1 ≤ rows.length → rows.length ≤ 3 →
      render_availability_search (some rows)
        = { found_count := some rows.length, too_many_warning := false, banners := rows,
            no_match_info := false })
    ∧ ((render_availability_search result).banners ≠ [] →
      ∃ rs, result = some rs ∧ 1 ≤ rs.length ∧ rs.length ≤ 3
        ∧ (render_availability_search result).too_many_warning = false
        ∧ (render_availability_search result).banners = rs) := by
  refine ⟨?_, ?_, ?_⟩
  · intro h
    have hne : rows.isEmpty = false := by
      cases rows with
      | nil => simp at h
      | cons a l => rfl
    simp [render_availability_search, hne, h]
  · intro h1 h3
    have hne : rows.isEmpty = false := by
      cases rows with
      | nil => simp at h1
      | cons a l => rfl
    simp [render_availability_search, hne, not_lt.mpr h3]
  · intro hb
    cases result with
    | none => simp [render_availability_search] at hb
    | some rs =>
      refine ⟨rs, rfl, ?_⟩
      by_cases hemp : rs.isEmpty
      · simp [render_availability_search, hemp] at hb
      · by_cases h3 : 3 < rs.length
        · simp [render_availability_search, hemp, h3] at hb
        · have h1 : 1 ≤ rs.length := by
            cases rs with
            | nil => simp at hemp
            | cons a l => simp
          refine ⟨h1, not_lt.mp h3, ?_, ?_⟩
          · simp [render_availability_search, hemp, h3]
          · simp [render_availability_search, hemp, h3]

/-- Concrete four-row and two-row availability results, used to witness C9. -/
def avail_row (n : Nat) : AvailabilityRow :=
  { product_title := "P" ++ toString n, brand := "B", availability := "IN_STOCK",
    sku := toString n }

/-- Witness for C9 at a concrete four-row and a concrete two-row result. -/
theorem c9_availability_banner_threshold_witness :
    render_availability_search (some [avail_row 1, avail_row 2, avail_row 3, avail_row 4])
      = { found_count := some 4, too_many_warning := true, banners := [],
          no_match_info := false }
    ∧ render_availability_search (some [avail_row 1, avail_row 2])
      = { found_count := some 2, too_many_warning := false,
          banners := [avail_row 1, avail_row 2], no_match_info := false } := by
  constructor
  · exact (c9_availability_banner_threshold
      [avail_row 1, avail_row 2, avail_row 3, avail_row 4] none).1 (by decide)
  · exact ((c9_availability_banner_threshold
      [avail_row 1, avail_row 2] none).2.1 (by decide) (by decide))

end RetailDashboard
